import Mathlib

/-
Verification of the Sentra code-analysis heuristics.

This file is a shallow embedding in Lean 4 of the parts of the Sentra
repository that the specification talks about:

* the `CodeStore` class (file/session maps plus the heuristic analyzers
  `analyzeCode`, `scanSecurity`, `analyzePerformance`,
  `generateDocumentation`);
* the duplicated analyzer helpers in the Mastra tool files
  (security scanner, performance optimizer, code analyzer);
* the `POST` handler of the AI chat route, which proxies a message to a
  remote agent and falls back to a canned string.

JavaScript strings are modelled as `List Char`; `String.prototype.split`,
`includes` and `toLowerCase` are reimplemented with JS semantics
(`"".split sep = [""]`, etc.).  JavaScript numbers are modelled as `ℚ`
(for the score arithmetic, which involves `0.4`, `1.5`, division, and
`Math.round`) or as `Nat`/`Int` where the source only ever holds
integers.  `Math.round` is `round : ℚ → ℤ` (both round half up),
`Math.max`/`Math.min` are `max`/`min`.  Nondeterministic inputs of the
source (`uuidv4()`, `new Date().toISOString()`, the outcome of `fetch`)
are passed to the embedded operations as explicit arguments.
-/

namespace Sentra

/-! ### JavaScript string primitives -/

/-- JS strings as lists of characters. -/
abbrev Str := List Char

/-- Literal JS string. -/
def str (s : String) : Str := s.toList

/-- `beginsWith needle hay`: `hay` starts with `needle`. -/
def beginsWith : Str → Str → Bool
  | [], _ => true
  | _ :: _, [] => false
  | a :: as, b :: bs => a = b && beginsWith as bs

/-- Helper for `includes`: does `needle` occur in the haystack? -/
def containsSub (needle : Str) : Str → Bool
  | [] => beginsWith needle []
  | c :: cs => beginsWith needle (c :: cs) || containsSub needle cs

/-- JS `hay.includes(needle)`. -/
def includes (hay needle : Str) : Bool := containsSub needle hay

/-- JS `s.toLowerCase()` (ASCII-adequate: all needles in the source are ASCII). -/
def toLowerStr (s : Str) : Str := s.map Char.toLower

/-- JS `s.split(sep)` for a one-character separator: always returns at
least one (possibly empty) piece, e.g. `"".split("\n") = [""]`. -/
def jsSplit (sep : Char) : Str → List Str
  | [] => [[]]
  | c :: cs =>
    if c = sep then [] :: jsSplit sep cs
    else
      match jsSplit sep cs with
      | [] => [[c]]
      | l :: ls => (c :: l) :: ls

/-- JS `a || b` for an optional string `a` (falsy when absent or empty). -/
def jsOrStr (s : Option String) (d : String) : String :=
  match s with
  | none => d
  | some t => if t = "" then d else t

/-- JS truthiness of an optional string field (`v.owasp`, `v.cwe`). -/
def jsTruthyStr (s : Option String) : Bool :=
  match s with
  | none => false
  | some t => !(t == "")

/-- `lines.forEach((line, index) => out.push(...f(index+1, line)))`:
scan a list of lines, numbering them from `k`, concatenating the
findings each line produces. -/
def scanLines {α : Type} (f : Nat → Str → List α) : Nat → List Str → List α
  | _, [] => []
  | n, l :: ls => f n l ++ scanLines f (n + 1) ls

/-! ### Data model (`code-types.ts`) -/

/-- `'low' | 'medium' | 'high' | 'critical'`. -/
inductive Severity
  | low
  | medium
  | high
  | critical
deriving DecidableEq

/-- `Vulnerability` interface. -/
structure Vulnerability where
  id : String
  title : String
  severity : Severity
  description : String
  line? : Option Nat
  cwe? : Option String
  owasp? : Option String
  fix : String
  impact : String
deriving DecidableEq

/-- `'cpu' | 'memory' | 'network' | 'database' | 'rendering'`. -/
inductive BottleneckType
  | cpu
  | memory
  | network
  | database
  | rendering
deriving DecidableEq

/-- `'low' | 'medium' | 'high'` effort level in bottleneck metrics. -/
inductive EffortLevel
  | low
  | medium
  | high
deriving DecidableEq

/-- `Bottleneck.metrics`. -/
structure BottleneckMetrics where
  estimatedImprovement : String
  complexity : EffortLevel
deriving DecidableEq

/-- `Bottleneck` interface. -/
structure Bottleneck where
  type : BottleneckType
  severity : Severity
  description : String
  line? : Option Nat
  impact : String
  solution : String
  metrics : BottleneckMetrics
deriving DecidableEq

/-- `'error' | 'warning' | 'info'`. -/
inductive IssueType
  | error
  | warning
  | info
deriving DecidableEq

/-- `CodeIssue` interface. -/
structure CodeIssue where
  type : IssueType
  message : String
  line? : Option Nat
  severity : Severity
  suggestion? : Option String
deriving DecidableEq

namespace CodeStore

/-! ### `CodeStore.detectVulnerabilities` and scoring (`code-store.ts`) -/

/-- The fixed SQL-injection finding pushed for line `n`. -/
def sqlInjectionVuln (n : Nat) : Vulnerability :=
  { id := "SQL_INJECTION"
    title := "Potential SQL Injection"
    severity := .high
    description := "String concatenation in SQL queries can lead to SQL injection"
    line? := some n
    cwe? := some "CWE-89"
    owasp? := some "A03:2021 – Injection"
    fix := "Use parameterized queries or prepared statements"
    impact := "Data breach, unauthorized access to database" }

/-- The fixed XSS finding pushed for line `n`. -/
def xssVuln (n : Nat) : Vulnerability :=
  { id := "XSS"
    title := "Cross-Site Scripting (XSS)"
    severity := .high
    description := "Direct DOM manipulation can lead to XSS attacks"
    line? := some n
    cwe? := some "CWE-79"
    owasp? := some "A03:2021 – Injection"
    fix := "Use textContent or sanitize HTML input"
    impact := "Session hijacking, data theft, malicious script execution" }

/-- The fixed hardcoded-secret finding pushed for line `n`. -/
def hardcodedSecretVuln (n : Nat) : Vulnerability :=
  { id := "HARDCODED_SECRET"
    title := "Hardcoded Password or Secret"
    severity := .critical
    description := "Hardcoded credentials or secrets in source code"
    line? := some n
    cwe? := some "CWE-798"
    owasp? := some "A07:2021 – Identification and Authentication Failures"
    fix := "Use environment variables or secure secret management"
    impact := "Complete system compromise, credential exposure" }

/-- Body of the `lines.forEach` of `CodeStore.detectVulnerabilities`:
the findings pushed for one line (numbered `n`). -/
def secRulesForLine (n : Nat) (line : Str) : List Vulnerability :=
  let lowerLine := toLowerStr line
  (if includes lowerLine (str "query") && includes lowerLine (str "+")
      && !(includes lowerLine (str "prepared")) then [sqlInjectionVuln n] else [])
  ++ (if includes lowerLine (str "innerhtml") || includes lowerLine (str "outerhtml")
      then [xssVuln n] else [])
  ++ (if includes lowerLine (str "password") && includes lowerLine (str "=")
      && !(includes lowerLine (str "process.env")) then [hardcodedSecretVuln n] else [])

/-- `CodeStore.detectVulnerabilities(code, language)`. -/
def detectVulnerabilities (code : Str) (language : String) : List Vulnerability :=
  scanLines secRulesForLine 1 (jsSplit '\n' code)

/-- The per-severity deduction of `CodeStore.calculateSecurityScore`'s
`switch` statement. -/
def securityPenalty : Severity → Int
  | .critical => 25
  | .high => 15
  | .medium => 8
  | .low => 3

/-- `CodeStore.calculateSecurityScore(vulnerabilities)`. -/
def calculateSecurityScore (vulnerabilities : List Vulnerability) : Int :=
  if vulnerabilities.length = 0 then 100
  else
    max 0 (vulnerabilities.foldl (fun score v => score - securityPenalty v.severity) 100)

/-- `CodeStore.generateSecurityRecommendations(vulnerabilities, language)`. -/
def generateSecurityRecommendations (vulnerabilities : List Vulnerability)
    (language : String) : List String :=
  (if vulnerabilities.any (fun v => decide (v.severity = .critical))
   then ["🚨 Address critical security vulnerabilities immediately"] else [])
  ++ (if vulnerabilities.any (fun v => decide (v.id = "HARDCODED_SECRET"))
      then ["🔐 Implement proper secret management"] else [])
  ++ (if vulnerabilities.any (fun v => decide (v.id = "SQL_INJECTION"))
      then ["🛡️ Use parameterized queries and input validation"] else [])
  ++ (if vulnerabilities.any (fun v => decide (v.id = "XSS"))
      then ["🔒 Implement Content Security Policy (CSP) and input sanitization"] else [])
  ++ ["🔄 Regular security audits and dependency updates",
      "📚 Follow OWASP Top 10 guidelines"]

/-- One of the two `compliance` entries of a `SecurityScan`. -/
structure ComplianceEntry where
  score : Int
  issues : List String
deriving DecidableEq

/-- `SecurityScan.compliance`. -/
structure Compliance where
  owasp : ComplianceEntry
  cwe : ComplianceEntry
deriving DecidableEq

/-- `SecurityScan` interface. -/
structure SecurityScan where
  securityScore : Int
  vulnerabilities : List Vulnerability
  recommendations : List String
  compliance : Compliance
deriving DecidableEq

/-- `CodeStore.scanSecurity(code, language)`. -/
def scanSecurity (code : Str) (language : String) : SecurityScan :=
  let vulnerabilities := detectVulnerabilities code language
  { securityScore := calculateSecurityScore vulnerabilities
    vulnerabilities := vulnerabilities
    recommendations := generateSecurityRecommendations vulnerabilities language
    compliance :=
      { owasp :=
          { score := max 0 (100 - (vulnerabilities.filter (fun v => jsTruthyStr v.owasp?)).length * 10)
            issues := (vulnerabilities.filter (fun v => jsTruthyStr v.owasp?)).map
              (fun v => (v.owasp?.getD "") ++ ": " ++ v.title) }
        cwe :=
          { score := max 0 (100 - (vulnerabilities.filter (fun v => jsTruthyStr v.cwe?)).length * 8)
            issues := (vulnerabilities.filter (fun v => jsTruthyStr v.cwe?)).map
              (fun v => (v.cwe?.getD "") ++ ": " ++ v.title) } } }

/-! ### `CodeStore.detectPerformanceBottlenecks` and scoring -/

/-- The fixed nested-loops finding pushed for line `n`. -/
def nestedLoopsBottleneck (n : Nat) : Bottleneck :=
  { type := .cpu
    severity := .high
    description := "Nested loops detected - O(n²) or worse complexity"
    line? := some n
    impact := "Exponential time complexity, poor scalability"
    solution := "Consider using hash maps, sorting, or divide-and-conquer algorithms"
    metrics := { estimatedImprovement := "50-90%", complexity := .medium } }

/-- The fixed event-listener-leak finding pushed for line `n`. -/
def eventListenerBottleneck (n : Nat) : Bottleneck :=
  { type := .memory
    severity := .high
    description := "Potential memory leak - event listeners not removed"
    line? := some n
    impact := "Memory usage grows over time, eventual crash"
    solution := "Remove event listeners in cleanup functions or use AbortController"
    metrics := { estimatedImprovement := "Prevents memory leaks", complexity := .low } }

/-- Body of the `lines.forEach` of `CodeStore.detectPerformanceBottlenecks`.
The source tests `(lowerLine.includes('for') && lowerLine.includes('for')) ||
(lowerLine.includes('while') && lowerLine.includes('while'))`; the duplicated
conjuncts are kept verbatim.  The second rule matches `'addEventListener'`
(mixed case) against the lowercased line, also kept verbatim. -/
def perfRulesForLine (n : Nat) (line : Str) : List Bottleneck :=
  let lowerLine := toLowerStr line
  (if (includes lowerLine (str "for") && includes lowerLine (str "for"))
      || (includes lowerLine (str "while") && includes lowerLine (str "while"))
   then [nestedLoopsBottleneck n] else [])
  ++ (if includes lowerLine (str "addEventListener")
        && !(includes lowerLine (str "removeEventListener"))
      then [eventListenerBottleneck n] else [])

/-- `CodeStore.detectPerformanceBottlenecks(code, language)`. -/
def detectPerformanceBottlenecks (code : Str) (language : String) : List Bottleneck :=
  scanLines perfRulesForLine 1 (jsSplit '\n' code)

/-- The per-severity deduction of `CodeStore.calculatePerformanceScore`. -/
def performancePenalty : Severity → Int
  | .critical => 20
  | .high => 15
  | .medium => 8
  | .low => 3

/-- `CodeStore.calculatePerformanceScore(bottlenecks)`. -/
def calculatePerformanceScore (bottlenecks : List Bottleneck) : Int :=
  if bottlenecks.length = 0 then 100
  else
    max 0 (bottlenecks.foldl (fun score b => score - performancePenalty b.severity) 100)

/-- `CodeStore.generatePerformanceRecommendations(bottlenecks, language)`. -/
def generatePerformanceRecommendations (bottlenecks : List Bottleneck)
    (language : String) : List String :=
  (if bottlenecks.any (fun b => decide (b.severity = .critical))
   then ["🚨 Address critical performance bottlenecks immediately"] else [])
  ++ (if bottlenecks.any (fun b => decide (b.type = .cpu))
      then ["⚡ Optimize algorithms and reduce time complexity"] else [])
  ++ (if bottlenecks.any (fun b => decide (b.type = .memory))
      then ["🧠 Implement proper memory management and cleanup"] else [])
  ++ ["📊 Use performance monitoring tools",
      "🔄 Regular performance audits and optimization"]

/-- `PerformanceAnalysis.metrics`. -/
structure PerformanceMetrics where
  estimatedLoadTime : String
  memoryUsage : String
  cpuIntensity : String
deriving DecidableEq

/-- `CodeStore.calculatePerformanceMetrics(code, bottlenecks)`.  The source
also computes local `lines`/`functions` counts from `code` but never uses
them, so the result depends on the bottlenecks only. -/
def calculatePerformanceMetrics (bottlenecks : List Bottleneck) : PerformanceMetrics :=
  if bottlenecks.any (fun b => decide (b.severity = .critical)) then
    { estimatedLoadTime := "Very Slow", memoryUsage := "Very High", cpuIntensity := "Very High" }
  else if bottlenecks.any (fun b => decide (b.severity = .high)) then
    { estimatedLoadTime := "Slow", memoryUsage := "High", cpuIntensity := "High" }
  else
    { estimatedLoadTime := "Fast", memoryUsage := "Low", cpuIntensity := "Low" }

/-- `PerformanceAnalysis` interface. -/
structure PerformanceAnalysis where
  performanceScore : Int
  bottlenecks : List Bottleneck
  recommendations : List String
  metrics : PerformanceMetrics
deriving DecidableEq

/-- `CodeStore.analyzePerformance(code, language)`. -/
def analyzePerformance (code : Str) (language : String) : PerformanceAnalysis :=
  let bottlenecks := detectPerformanceBottlenecks code language
  { performanceScore := calculatePerformanceScore bottlenecks
    bottlenecks := bottlenecks
    recommendations := generatePerformanceRecommendations bottlenecks language
    metrics := calculatePerformanceMetrics bottlenecks }

end CodeStore

/-! ### Counting regex matches

`analyzeCode` counts matches of a handful of simple regexes
(`/function\s+\w+|const\s+\w+\s*=\s*\(/g`, `/class\s+\w+/g`,
`/\/\/|\/\*|\*\/|\#/g`, and `\b<keyword>\b` per complexity keyword).
Those patterns are sequences of literals, `\s+`, `\s*` and `\w+`, for
which JS's leftmost-match, ordered-alternation, greedy semantics needs
no backtracking; `countMatches` below reproduces the global
non-overlapping scan of `String.prototype.match(.../g).length`. -/

/-- JS `\w`. -/
def isWordChar (c : Char) : Bool := c.isAlphanum || c = '_'

/-- JS `\s` (ASCII-adequate approximation). -/
def isSpaceChar (c : Char) : Bool := c.isWhitespace

/-- One token of the simple patterns used by the analyzers. -/
inductive PatTok
  | lit (c : Char)
  | plusWord
  | plusSpace
  | starSpace

/-- Greedily drop a maximal run of characters satisfying `p`. -/
def dropClass (p : Char → Bool) : Str → Str
  | [] => []
  | c :: cs => if p c then dropClass p cs else c :: cs

/-- Match a token sequence at the head of the input, greedily; returns
the rest of the input after the match. -/
def matchToks : List PatTok → Str → Option Str
  | [], s => some s
  | .lit _ :: _, [] => none
  | .lit c :: ts, x :: xs => if x = c then matchToks ts xs else none
  | .plusWord :: _, [] => none
  | .plusWord :: ts, x :: xs =>
    if isWordChar x then matchToks ts (dropClass isWordChar xs) else none
  | .plusSpace :: _, [] => none
  | .plusSpace :: ts, x :: xs =>
    if isSpaceChar x then matchToks ts (dropClass isSpaceChar xs) else none
  | .starSpace :: ts, s => matchToks ts (dropClass isSpaceChar s)

/-- Literal pattern from a string. -/
def lits (s : String) : List PatTok := s.toList.map PatTok.lit

/-- First alternative (in order) matching at the head of the input. -/
def tryPats : List (List PatTok) → Str → Option Str
  | [], _ => none
  | p :: ps, s =>
    match matchToks p s with
    | some r => some r
    | none => tryPats ps s

/-- Fuel-driven global scan: at each position try the alternatives in
order; on a match, count it and continue after it; the fuel (initially
the string length) makes totality obvious and never runs out because
every pattern used here consumes at least one character. -/
def countMatchesAux (pats : List (List PatTok)) : Nat → Str → Nat
  | 0, _ => 0
  | _ + 1, [] => 0
  | fuel + 1, c :: cs =>
    match tryPats pats (c :: cs) with
    | some r => 1 + countMatchesAux pats fuel r
    | none => countMatchesAux pats fuel cs

/-- `(code.match(alternation) || []).length`. -/
def countMatches (pats : List (List PatTok)) (s : Str) : Nat :=
  countMatchesAux pats s.length s

/-- `function\s+\w+` (first alternative of the function-count regex). -/
def funcPat1 : List PatTok := lits "function" ++ [.plusSpace, .plusWord]

/-- `const\s+\w+\s*=\s*\(` (second alternative of the function-count regex). -/
def funcPat2 : List PatTok :=
  lits "const" ++ [.plusSpace, .plusWord, .starSpace, .lit '=', .starSpace, .lit '(']

/-- `class\s+\w+`. -/
def classPat : List PatTok := lits "class" ++ [.plusSpace, .plusWord]

/-- `\/\/|\/\*|\*\/|\#`, the comment-count regex. -/
def commentPats : List (List PatTok) := [lits "//", lits "/*", lits "*/", lits "#"]

/-! Word-boundary keyword counting for `\b<kw>\b` regexes.  A `\b`
holds at a position iff exactly one of the two adjacent characters is a
word character (ends of the string count as non-word). -/

/-- Word-ness of an optional adjacent character. -/
def isWordB : Option Char → Bool
  | none => false
  | some c => isWordChar c

/-- Fuel-driven non-overlapping count of `\b<kw>\b` matches; `prev` is
the character just before the current position. -/
def countKwAux (kw : Str) : Nat → Option Char → Str → Nat
  | 0, _, _ => 0
  | _ + 1, _, [] => 0
  | fuel + 1, prev, c :: cs =>
    if beginsWith kw (c :: cs) && (isWordB prev != isWordB (some c))
        && (isWordB kw.getLast? != isWordB ((c :: cs).get? kw.length)) then
      1 + countKwAux kw fuel ((c :: cs).get? (kw.length - 1)) (List.drop kw.length (c :: cs))
    else
      countKwAux kw fuel (some c) cs

/-- `(code.match(new RegExp("\\b" + kw + "\\b", "g")) || []).length`. -/
def countKw (kw : Str) (s : Str) : Nat := countKwAux kw s.length none s

namespace CodeStore

/-! ### `CodeStore.analyzeCode` (`code-store.ts`) -/

/-- `CodeStore.calculateCyclomaticComplexity(code)`, keyword by keyword
in source order.  The store's keyword list escapes the question mark
(`'\\?'`), so that entry is the literal regex `\b\?\b`; but its `'||'`
entry is unescaped, so interpolation yields `\b||\b`, a three-way
alternation whose middle alternative is empty — one zero-length match at
every one of the `length + 1` positions, exactly as in the tool copy
(`AnalyzerTool.calculateCyclomaticComplexity`). -/
def calculateCyclomaticComplexity (code : Str) : Nat :=
  1 + countKw (str "if") code + countKw (str "else") code + countKw (str "while") code
    + countKw (str "for") code + countKw (str "switch") code + countKw (str "case") code
    + countKw (str "catch") code + countKw (str "&&") code
    + (code.length + 1)
    + countKw (str "?") code + countKw (str ":") code + countKw (str "try") code

/-- Keyword list of `CodeStore.calculateCognitiveComplexity`. -/
def cognitiveKeywords : List Str :=
  [str "if", str "else", str "while", str "for", str "switch", str "try", str "catch"]

/-- `CodeStore.calculateCognitiveComplexity(code)`. -/
def calculateCognitiveComplexity (code : Str) : Nat :=
  (cognitiveKeywords.map (fun kw => countKw kw code)).sum

/-- Body of the `lines.forEach` of `CodeStore.detectCodeIssues`
(conditions test the raw line, not the lowercased one). -/
def issueRulesForLine (language : String) (n : Nat) (line : Str) : List CodeIssue :=
  (if includes line (str "console.log") && !(includes line (str "//")) then
     [{ type := .warning, message := "Console.log statement found", line? := some n,
        severity := .low, suggestion? := some "Remove or replace with proper logging" }]
   else [])
  ++ (if includes line (str "var ") && decide (language = "javascript") then
        [{ type := .warning, message := "Use of var keyword", line? := some n,
           severity := .medium, suggestion? := some "Use let or const instead of var" }]
      else [])
  ++ (if includes line (str "==") && !(includes line (str "===")) then
        [{ type := .warning, message := "Use of == instead of ===", line? := some n,
           severity := .medium, suggestion? := some "Use strict equality (===)" }]
      else [])

/-- `CodeStore.detectCodeIssues(code, language)`. -/
def detectCodeIssues (code : Str) (language : String) : List CodeIssue :=
  scanLines (issueRulesForLine language) 1 (jsSplit '\n' code)

/-- `CodeStore.generateImprovementSuggestions(code, issues, qualityScore)`;
`qualityScore` is the unrounded clamped value the caller passes. -/
def generateImprovementSuggestions (code : Str) (issues : List CodeIssue)
    (qualityScore : ℚ) : List String :=
  (if qualityScore < 50 then ["Consider refactoring to improve code quality"] else [])
  ++ (if issues.any (fun i => decide (i.severity = .high) || decide (i.severity = .critical))
      then ["Address high-severity issues immediately"] else [])
  ++ (let functions := countMatches [funcPat1, funcPat2] code
      let lines := (jsSplit '\n' code).length
      if (functions : ℚ) > (lines : ℚ) / 10
      then ["Consider breaking down large functions"] else [])
  ++ (if includes code (str "any") && includes code (str "typescript")
      then ["Avoid using \"any\" type in TypeScript"] else [])
  ++ (if !(includes code (str "test")) && !(includes code (str "spec"))
      then ["Add unit tests for better code coverage"] else [])

/-- `CodeAnalysis.complexity`. -/
structure ComplexityInfo where
  cyclomatic : Nat
  cognitive : Nat
  maintainability : Int
deriving DecidableEq

/-- `CodeAnalysis.metrics`. -/
structure CodeMetrics where
  linesOfCode : Nat
  functions : Nat
  classes : Nat
  comments : Nat
deriving DecidableEq

/-- `CodeAnalysis` interface. -/
structure CodeAnalysis where
  qualityScore : Int
  complexity : ComplexityInfo
  issues : List CodeIssue
  metrics : CodeMetrics
  suggestions : List String
deriving DecidableEq

/-- `CodeStore.analyzeCode(code, language)`. -/
def analyzeCode (code : Str) (language : String) : CodeAnalysis :=
  let lines := (jsSplit '\n' code).length
  let functions := countMatches [funcPat1, funcPat2] code
  let classes := countMatches [classPat] code
  let comments := countMatches commentPats code
  let cyclomaticComplexity := calculateCyclomaticComplexity code
  let cognitiveComplexity := calculateCognitiveComplexity code
  let maintainabilityIndex : ℚ :=
    max 0 (100 - (cyclomaticComplexity : ℚ) * 2 - (cognitiveComplexity : ℚ) * 1.5)
  let qualityScore : ℚ :=
    max 0 (min 100 (
      maintainabilityIndex * 0.4
      + ((comments : ℚ) / (lines : ℚ) * 100) * 0.2
      + (if functions > 0
         then min 100 (100 - ((functions : ℚ) / (lines : ℚ) * 1000))
         else 100) * 0.4))
  let issues := detectCodeIssues code language
  let suggestions := generateImprovementSuggestions code issues qualityScore
  { qualityScore := round qualityScore
    complexity :=
      { cyclomatic := cyclomaticComplexity
        cognitive := cognitiveComplexity
        maintainability := round maintainabilityIndex }
    issues := issues
    metrics :=
      { linesOfCode := lines, functions := functions, classes := classes, comments := comments }
    suggestions := suggestions }

end CodeStore

namespace SecurityTool

/-! ### `security-scanner.ts` (Mastra tool): `scanForVulnerabilities`
and its own copy of `calculateSecurityScore`. -/

/-- Fixed weak-randomness finding. -/
def weakRandomVuln (n : Nat) : Vulnerability :=
  { id := "WEAK_RANDOM"
    title := "Weak Random Number Generation"
    severity := .medium
    description := "Math.random() is not cryptographically secure"
    line? := some n
    cwe? := some "CWE-330"
    owasp? := some "A02:2021 – Cryptographic Failures"
    fix := "Use crypto.getRandomValues() for cryptographic purposes"
    impact := "Predictable values, weak security" }

/-- Fixed insecure-protocol finding. -/
def insecureProtocolVuln (n : Nat) : Vulnerability :=
  { id := "INSECURE_PROTOCOL"
    title := "Insecure HTTP Protocol"
    severity := .medium
    description := "HTTP traffic is not encrypted"
    line? := some n
    cwe? := some "CWE-319"
    owasp? := some "A02:2021 – Cryptographic Failures"
    fix := "Use HTTPS for all communications"
    impact := "Data interception, man-in-the-middle attacks" }

/-- Fixed missing-input-validation finding. -/
def inputValidationVuln (n : Nat) : Vulnerability :=
  { id := "INPUT_VALIDATION"
    title := "Missing Input Validation"
    severity := .medium
    description := "User input not validated or sanitized"
    line? := some n
    cwe? := some "CWE-20"
    owasp? := some "A03:2021 – Injection"
    fix := "Implement proper input validation and sanitization"
    impact := "Injection attacks, data corruption" }

/-- Fixed weak-authentication finding. -/
def weakAuthVuln (n : Nat) : Vulnerability :=
  { id := "WEAK_AUTH"
    title := "Weak Authentication"
    severity := .high
    description := "Simple string comparison for authentication"
    line? := some n
    cwe? := some "CWE-287"
    owasp? := some "A07:2021 – Identification and Authentication Failures"
    fix := "Use secure password hashing (bcrypt, scrypt)"
    impact := "Account takeover, unauthorized access" }

/-- Body of the `lines.forEach` of the tool's `scanForVulnerabilities`.
The first three rules and their fixed findings are character-for-character
the same as in `CodeStore.detectVulnerabilities`. -/
def secRulesForLine (language : String) (n : Nat) (line : Str) : List Vulnerability :=
  let lowerLine := toLowerStr line
  (if includes lowerLine (str "query") && includes lowerLine (str "+")
      && !(includes lowerLine (str "prepared")) then [CodeStore.sqlInjectionVuln n] else [])
  ++ (if includes lowerLine (str "innerhtml") || includes lowerLine (str "outerhtml")
      then [CodeStore.xssVuln n] else [])
  ++ (if includes lowerLine (str "password") && includes lowerLine (str "=")
      && !(includes lowerLine (str "process.env")) then [CodeStore.hardcodedSecretVuln n] else [])
  ++ (if includes lowerLine (str "math.random") && decide (language = "javascript")
      then [weakRandomVuln n] else [])
  ++ (if includes lowerLine (str "http://") && !(includes lowerLine (str "localhost"))
      then [insecureProtocolVuln n] else [])
  ++ (if includes lowerLine (str "req.") && !(includes lowerLine (str "validate"))
        && !(includes lowerLine (str "sanitize")) then [inputValidationVuln n] else [])
  ++ (if includes lowerLine (str "auth") && includes lowerLine (str "==")
        && !(includes lowerLine (str "bcrypt")) then [weakAuthVuln n] else [])

/-- `scanForVulnerabilities(code, language, framework?)` of the security
scanner tool (the `framework` argument is never read by the scan). -/
def scanForVulnerabilities (code : Str) (language : String)
    (framework : Option String) : List Vulnerability :=
  scanLines (secRulesForLine language) 1 (jsSplit '\n' code)

/-- The security scanner tool's private `calculateSecurityScore`, a
verbatim duplicate of the `CodeStore` one. -/
def calculateSecurityScore (vulnerabilities : List Vulnerability) : Int :=
  if vulnerabilities.length = 0 then 100
  else
    max 0 (vulnerabilities.foldl
      (fun score v => score - CodeStore.securityPenalty v.severity) 100)

end SecurityTool

namespace PerfTool

/-! ### `performance-optimizer.ts` (Mastra tool):
`analyzePerformanceBottlenecks`. -/

/-- Fixed chained-array-iteration finding. -/
def arrayIterationBottleneck (n : Nat) : Bottleneck :=
  { type := .cpu
    severity := .medium
    description := "Multiple array iterations in sequence"
    line? := some n
    impact := "Multiple passes over data, increased CPU usage"
    solution := "Combine operations into single reduce() or use for...of loop"
    metrics := { estimatedImprovement := "20-40%", complexity := .low } }

/-- Fixed large-allocation finding. -/
def largeArrayBottleneck (n : Nat) : Bottleneck :=
  { type := .memory
    severity := .medium
    description := "Large array allocation"
    line? := some n
    impact := "High memory usage, potential garbage collection pressure"
    solution := "Use streaming, pagination, or lazy loading for large datasets"
    metrics := { estimatedImprovement := "30-60%", complexity := .medium } }

/-- Fixed synchronous-IO finding. -/
def syncOpsBottleneck (n : Nat) : Bottleneck :=
  { type := .cpu
    severity := .medium
    description := "Synchronous file operations blocking event loop"
    line? := some n
    impact := "Blocks other operations, poor user experience"
    solution := "Use async/await with fs.promises or streams"
    metrics := { estimatedImprovement := "Non-blocking execution", complexity := .low } }

/-- Fixed repeated-DOM-query finding. -/
def domQueryBottleneck (n : Nat) : Bottleneck :=
  { type := .rendering
    severity := .medium
    description := "Repeated DOM queries in loop"
    line? := some n
    impact := "Multiple DOM traversals, slow rendering"
    solution := "Cache DOM elements or use querySelectorAll with single query"
    metrics := { estimatedImprovement := "40-70%", complexity := .low } }

/-- Fixed N+1-query finding. -/
def nPlusOneBottleneck (n : Nat) : Bottleneck :=
  { type := .database
    severity := .high
    description := "Potential N+1 query problem"
    line? := some n
    impact := "Multiple database calls, poor performance"
    solution := "Use eager loading, joins, or batch operations"
    metrics := { estimatedImprovement := "80-95%", complexity := .high } }

/-- Fixed lazy-loading finding. -/
def lazyImageBottleneck (n : Nat) : Bottleneck :=
  { type := .network
    severity := .low
    description := "Images without lazy loading"
    line? := some n
    impact := "Unnecessary network requests, slow initial load"
    solution := "Add loading=\"lazy\" and optimize image formats (WebP, AVIF)"
    metrics := { estimatedImprovement := "20-50%", complexity := .low } }

/-- Fixed uncached-fetch finding. -/
def noCacheBottleneck (n : Nat) : Bottleneck :=
  { type := .network
    severity := .medium
    description := "API calls without caching"
    line? := some n
    impact := "Repeated network requests, increased latency"
    solution := "Implement caching strategy (Redis, memory cache, or HTTP cache)"
    metrics := { estimatedImprovement := "60-90%", complexity := .medium } }

/-- Body of the `lines.forEach` of the tool's
`analyzePerformanceBottlenecks`.  As in the `CodeStore` copy, the
duplicated `includes('for')`/`includes('while')` conjuncts and the
mixed-case needles tested against the lowercased line
(`'addEventListener'`, `'new Array('`, `'fs.readFileSync'`,
`'document.getElementById'`) are kept verbatim. -/
def perfRulesForLine (n : Nat) (line : Str) : List Bottleneck :=
  let lowerLine := toLowerStr line
  (if (includes lowerLine (str "for") && includes lowerLine (str "for"))
      || (includes lowerLine (str "while") && includes lowerLine (str "while"))
   then [CodeStore.nestedLoopsBottleneck n] else [])
  ++ (if includes lowerLine (str ".filter") && includes lowerLine (str ".map")
        && includes lowerLine (str ".reduce") then [arrayIterationBottleneck n] else [])
  ++ (if includes lowerLine (str "addEventListener")
        && !(includes lowerLine (str "removeEventListener"))
      then [CodeStore.eventListenerBottleneck n] else [])
  ++ (if includes lowerLine (str "new Array(") && includes lowerLine (str "1000")
      then [largeArrayBottleneck n] else [])
  ++ (if includes lowerLine (str "fs.readFileSync") || includes lowerLine (str "require(")
      then [syncOpsBottleneck n] else [])
  ++ (if includes lowerLine (str "document.getElementById") && includes lowerLine (str "for")
      then [domQueryBottleneck n] else [])
  ++ (if includes lowerLine (str "await") && includes lowerLine (str "for")
        && includes lowerLine (str "find") then [nPlusOneBottleneck n] else [])
  ++ (if includes lowerLine (str "img") && !(includes lowerLine (str "loading=\"lazy\""))
      then [lazyImageBottleneck n] else [])
  ++ (if includes lowerLine (str "fetch") && !(includes lowerLine (str "cache"))
      then [noCacheBottleneck n] else [])

/-- `analyzePerformanceBottlenecks(code, language, framework?)` of the
performance optimizer tool (the extra arguments are never read). -/
def analyzePerformanceBottlenecks (code : Str) (language : String)
    (framework : Option String) : List Bottleneck :=
  scanLines perfRulesForLine 1 (jsSplit '\n' code)

end PerfTool

namespace AnalyzerTool

/-! ### `code-analyzer.ts` (Mastra tool): the quality score of
`analyzeCodeTool.execute`.

The formula is character-for-character the one in
`CodeStore.analyzeCode`; only the cyclomatic helper differs, because the
tool's `calculateCyclomaticComplexity` keyword list leaves both `?` and
`||` unescaped (the store escapes `?`).  Interpolated into
`` `\b${keyword}\b` `` those give the regexes `\b?\b` (an optional word
boundary followed by a word boundary: one zero-length match at every
word-boundary position) and `\b||\b` (a three-way alternation whose
middle alternative is empty: one zero-length match at every one of the
`length + 1` positions). -/

/-- Number of word-boundary positions of a string (`prev` is the
character before the current position); used for the `\b?\b` count. -/
def countBoundaryPositionsAux : Option Char → Str → Nat
  | prev, [] => if isWordB prev then 1 else 0
  | prev, c :: cs =>
    (if isWordB prev != isWordChar c then 1 else 0) + countBoundaryPositionsAux (some c) cs

/-- `(code.match(/\b?\b/g) || []).length`. -/
def countBoundaryPositions (s : Str) : Nat := countBoundaryPositionsAux none s

/-- The tool's `calculateCyclomaticComplexity(code)`, keyword by keyword
in source order (`'||'` contributes `length + 1` and `'?'` the number of
word boundaries, per the regex semantics described above). -/
def calculateCyclomaticComplexity (code : Str) : Nat :=
  1 + countKw (str "if") code + countKw (str "else") code + countKw (str "while") code
    + countKw (str "for") code + countKw (str "switch") code + countKw (str "case") code
    + countKw (str "catch") code + countKw (str "&&") code
    + (code.length + 1)
    + countBoundaryPositions code
    + countKw (str ":") code + countKw (str "try") code

/-- The tool's `calculateCognitiveComplexity(code)` (same keyword list
as the `CodeStore` copy). -/
def calculateCognitiveComplexity (code : Str) : Nat :=
  (CodeStore.cognitiveKeywords.map (fun kw => countKw kw code)).sum

/-- The `qualityScore` computed and returned (after `Math.round`) by
`analyzeCodeTool.execute` on its non-error path. -/
def qualityScore (code : Str) : Int :=
  let lines := (jsSplit '\n' code).length
  let functions := countMatches [funcPat1, funcPat2] code
  let comments := countMatches commentPats code
  let cyclomaticComplexity := calculateCyclomaticComplexity code
  let cognitiveComplexity := calculateCognitiveComplexity code
  let maintainabilityIndex : ℚ :=
    max 0 (100 - (cyclomaticComplexity : ℚ) * 2 - (cognitiveComplexity : ℚ) * 1.5)
  round (max 0 (min 100 (
    maintainabilityIndex * 0.4
    + ((comments : ℚ) / (lines : ℚ) * 100) * 0.2
    + (if functions > 0
       then min 100 (100 - ((functions : ℚ) / (lines : ℚ) * 1000))
       else 100) * 0.4)) : ℚ)

end AnalyzerTool

namespace CodeStore

/-! ### `CodeStore.generateDocumentation` -/

/-- Result of the store's simplified `analyzeCodeStructure`. -/
structure StructureInfo where
  functions : Nat
  classes : Nat
  lines : Nat
deriving DecidableEq

/-- `CodeStore.analyzeCodeStructure(code, language)`. -/
def analyzeCodeStructure (code : Str) (language : String) : StructureInfo :=
  { functions := countMatches [funcPat1, funcPat2] code
    classes := countMatches [classPat] code
    lines := (jsSplit '\n' code).length }

/-- `DocumentationAnalysis.documentation`. -/
structure DocumentationContent where
  readme : String
  apiDocs : String
  codeComments : Str
  examples : List String
deriving DecidableEq

/-- `CodeStore.generateDocumentationContent(code, language, projectName?, structure?)`. -/
def generateDocumentationContent (code : Str) (language : String)
    (projectName : Option String) (struct : StructureInfo) : DocumentationContent :=
  { readme := "# " ++ jsOrStr projectName "CodeGuardian Project" ++ "\n\nGenerated documentation..."
    apiDocs := "API documentation..."
    codeComments := code
    examples := ["Usage examples..."] }

/-- `DocumentationAnalysis.coverage`. -/
structure DocCoverage where
  functions : Nat
  classes : Nat
  apis : Nat
  coverage : Nat
deriving DecidableEq

/-- `CodeStore.calculateDocumentationCoverage(code, structure?)`:
`Math.floor(n * 0.7)` and `Math.floor(n * 0.6)` over naturals. -/
def calculateDocumentationCoverage (code : Str) (struct : StructureInfo) : DocCoverage :=
  { functions := struct.functions * 7 / 10
    classes := struct.classes * 6 / 10
    apis := 0
    coverage := 70 }

/-- `CodeStore.generateDocumentationSuggestions(structure?, language?)`. -/
def generateDocumentationSuggestions (struct : StructureInfo)
    (language : String) : List String :=
  ["Add JSDoc comments to functions",
   "Create comprehensive README",
   "Document API endpoints",
   "Add usage examples"]

/-- `DocumentationAnalysis` interface. -/
structure DocumentationAnalysis where
  documentation : DocumentationContent
  coverage : DocCoverage
  suggestions : List String
deriving DecidableEq

/-- `CodeStore.generateDocumentation(code, language, projectName?)`. -/
def generateDocumentation (code : Str) (language : String)
    (projectName : Option String) : DocumentationAnalysis :=
  let struct := analyzeCodeStructure code language
  { documentation := generateDocumentationContent code language projectName struct
    coverage := calculateDocumentationCoverage code struct
    suggestions := generateDocumentationSuggestions struct language }

/-! ### The store itself: `files`/`sessions` maps and their operations

A JS `Map` is modelled as an insertion-ordered association list;
`Map.set` replaces the value of an existing key in place and appends a
new key at the end, `Map.get` looks the key up, `Map.values()` lists the
values in order.  The generated inputs `uuidv4()` and
`new Date().toISOString()` are explicit arguments. -/

/-- `CodeFile` interface. -/
structure CodeFile where
  id : String
  name : String
  path : String
  content : String
  language : String
  size : Nat
  lastModified : String
  analysis? : Option CodeAnalysis
  securityScan? : Option SecurityScan
  performanceAnalysis? : Option PerformanceAnalysis
deriving DecidableEq

/-- `Omit<CodeFile, 'id' | 'lastModified'>`, the argument of `addFile`. -/
structure CodeFileData where
  name : String
  path : String
  content : String
  language : String
  size : Nat
  analysis? : Option CodeAnalysis
  securityScan? : Option SecurityScan
  performanceAnalysis? : Option PerformanceAnalysis
deriving DecidableEq

/-- `Partial<CodeFile>`, the `updates` argument of `updateFile`; a
`none` field is absent from the updates object. -/
structure CodeFileUpdates where
  idU : Option String
  nameU : Option String
  pathU : Option String
  contentU : Option String
  languageU : Option String
  sizeU : Option Nat
  lastModifiedU : Option String
  analysisU : Option (Option CodeAnalysis)
  securityScanU : Option (Option SecurityScan)
  performanceAnalysisU : Option (Option PerformanceAnalysis)
deriving DecidableEq

/-- `{ ...file, ...updates, lastModified: now }`: fields present in
`updates` win over those of `file`, and `lastModified` is overwritten
last (so an update to it is itself overwritten, as in the source). -/
def applyFileUpdates (file : CodeFile) (updates : CodeFileUpdates) (now : String) : CodeFile :=
  { id := updates.idU.getD file.id
    name := updates.nameU.getD file.name
    path := updates.pathU.getD file.path
    content := updates.contentU.getD file.content
    language := updates.languageU.getD file.language
    size := updates.sizeU.getD file.size
    lastModified := now
    analysis? := updates.analysisU.getD file.analysis?
    securityScan? := updates.securityScanU.getD file.securityScan?
    performanceAnalysis? := updates.performanceAnalysisU.getD file.performanceAnalysis? }

/-- `'pending' | 'analyzing' | 'completed' | 'error'`. -/
inductive SessionStatus
  | pending
  | analyzing
  | completed
  | error
deriving DecidableEq

/-- `ReportSection` (its untyped `metrics?: any` is kept as an opaque
optional JSON string). -/
structure ReportSection where
  title : String
  content : String
  metricsJson? : Option String
  recommendations? : Option (List String)
deriving DecidableEq

/-- `ChartData` (untyped `data: any` kept as a JSON string). -/
structure ChartData where
  type : String
  title : String
  dataJson : String
deriving DecidableEq

/-- `AnalysisReport` interface. -/
structure AnalysisReport where
  title : String
  summary : String
  executiveSummary : String
  sections : List ReportSection
  charts? : Option (List ChartData)
deriving DecidableEq

/-- `AnalysisSession` interface. -/
structure AnalysisSession where
  id : String
  name : String
  repositoryUrl? : Option String
  files : List CodeFile
  createdAt : String
  updatedAt : String
  status : SessionStatus
  report? : Option AnalysisReport
deriving DecidableEq

/-- `Partial<AnalysisSession>`, the `updates` argument of `updateSession`. -/
structure SessionUpdates where
  idU : Option String
  nameU : Option String
  repositoryUrlU : Option (Option String)
  filesU : Option (List CodeFile)
  createdAtU : Option String
  updatedAtU : Option String
  statusU : Option SessionStatus
  reportU : Option (Option AnalysisReport)
deriving DecidableEq

/-- `{ ...session, ...updates, updatedAt: now }`. -/
def applySessionUpdates (session : AnalysisSession) (updates : SessionUpdates)
    (now : String) : AnalysisSession :=
  { id := updates.idU.getD session.id
    name := updates.nameU.getD session.name
    repositoryUrl? := updates.repositoryUrlU.getD session.repositoryUrl?
    files := updates.filesU.getD session.files
    createdAt := updates.createdAtU.getD session.createdAt
    updatedAt := now
    status := updates.statusU.getD session.status
    report? := updates.reportU.getD session.report? }

/-- `Map.get`. -/
def lookupAssoc {α : Type} (m : List (String × α)) (k : String) : Option α :=
  match m with
  | [] => none
  | (k', v) :: rest => if k' = k then some v else lookupAssoc rest k

/-- `Map.set`: replace in place if the key exists, else append. -/
def setAssoc {α : Type} (m : List (String × α)) (k : String) (v : α) : List (String × α) :=
  match m with
  | [] => [(k, v)]
  | (k', v') :: rest => if k' = k then (k, v) :: rest else (k', v') :: setAssoc rest k v

/-- The private state of the `CodeStore` class. -/
structure Store where
  files : List (String × CodeFile)
  sessions : List (String × AnalysisSession)
deriving DecidableEq

/-- `CodeStore.addFile(fileData)`; `newId` is the `uuidv4()` draw and
`now` the `new Date().toISOString()` timestamp. -/
def addFile (store : Store) (fileData : CodeFileData) (newId now : String) :
    CodeFile × Store :=
  let newFile : CodeFile :=
    { id := newId
      name := fileData.name
      path := fileData.path
      content := fileData.content
      language := fileData.language
      size := fileData.size
      lastModified := now
      analysis? := fileData.analysis?
      securityScan? := fileData.securityScan?
      performanceAnalysis? := fileData.performanceAnalysis? }
  (newFile, { store with files := setAssoc store.files newFile.id newFile })

/-- `CodeStore.getFile(id)`. -/
def getFile (store : Store) (id : String) : Option CodeFile :=
  lookupAssoc store.files id

/-- `CodeStore.getAllFiles()`. -/
def getAllFiles (store : Store) : List CodeFile :=
  store.files.map Prod.snd

/-- `CodeStore.updateFile(id, updates)`. -/
def updateFile (store : Store) (id : String) (updates : CodeFileUpdates)
    (now : String) : Option CodeFile × Store :=
  match lookupAssoc store.files id with
  | some file =>
    let updatedFile := applyFileUpdates file updates now
    (some updatedFile, { store with files := setAssoc store.files id updatedFile })
  | none => (none, store)

/-- `CodeStore.updateSession(id, updates)`. -/
def updateSession (store : Store) (id : String) (updates : SessionUpdates)
    (now : String) : Option AnalysisSession × Store :=
  match lookupAssoc store.sessions id with
  | some session =>
    let updatedSession := applySessionUpdates session updates now
    (some updatedSession, { store with sessions := setAssoc store.sessions id updatedSession })
  | none => (none, store)

/-! Method-call views of the four analyzers: each TS method body reads
only its arguments (never `this.files` / `this.sessions`), so the
embedded method returns its pure result together with the receiver
state. -/

/-- Calling `store.analyzeCode(code, language)`: result and post-state. -/
def analyzeCodeM (store : Store) (code : Str) (language : String) :
    CodeAnalysis × Store :=
  (analyzeCode code language, store)

/-- Calling `store.scanSecurity(code, language)`. -/
def scanSecurityM (store : Store) (code : Str) (language : String) :
    SecurityScan × Store :=
  (scanSecurity code language, store)

/-- Calling `store.analyzePerformance(code, language)`. -/
def analyzePerformanceM (store : Store) (code : Str) (language : String) :
    PerformanceAnalysis × Store :=
  (analyzePerformance code language, store)

/-- Calling `store.generateDocumentation(code, language, projectName?)`. -/
def generateDocumentationM (store : Store) (code : Str) (language : String)
    (projectName : Option String) : DocumentationAnalysis × Store :=
  (generateDocumentation code language projectName, store)

end CodeStore

namespace ChatRoute

/-! ### `src/app/api/ai/chat/route.ts`: the `POST` handler

The handler parses `{ message }` from the request body, rejects a falsy
message with a 400, then `fetch`es the remote agent with a 5-second
`AbortController` timeout inside an inner `try`.  The outcome of that
proxied call is an explicit input here: `fetchError` covers a thrown
`fetch` (network error or the 5-second abort) and a `response.json()`
that throws is `respond ok none`; `respond ok (some text?)` is a parsed
JSON body whose `data.text` is `text?`. -/

/-- Outcome of the proxied call to the remote agent. -/
inductive ProxyOutcome
  | fetchError
  | respond (ok : Bool) (jsonText : Option (Option String))
deriving DecidableEq

/-- ASCII apostrophe, spliced into string constants. -/
def apos : String := (Char.ofNat 39).toString

/-- `data.text || 'I received your message and I'm processing it.'`
default. -/
def processingMessage : String :=
  "I received your message and I" ++ apos ++ "m processing it."

/-- The fixed canned assistant string of the fallback response. -/
def chatFallbackMessage : String :=
  "🤖 **AI Code Analysis Assistant**\n\nI" ++ apos
  ++ "m here to help with your development needs! I can:\n\n**Code Analysis:**\n• Quality assessment and scoring\n• Complexity analysis\n• Best practices recommendations\n• Code review and suggestions\n\n**Security & Performance:**\n• Vulnerability scanning\n• Performance optimization\n• Security best practices\n• Compliance checking\n\n**Project Management:**\n• Roadmap generation\n• Documentation creation\n• Architecture analysis\n• Deployment strategies\n\nWhat specific aspect would you like me to help you with?"

/-- The JSON the handler responds with. -/
structure ChatResult where
  status : Nat
  response? : Option String
  error? : Option String
  timestamp? : Option String
deriving DecidableEq

/-- JS falsiness of the parsed `message` (absent or empty string). -/
def jsFalsy : Option String → Bool
  | none => true
  | some s => s == ""

/-- The `POST` handler.  `body` is the parse of the request JSON
(`none` = `request.json()` threw, handled by the outer `catch`);
`now` is the `new Date().toISOString()` timestamp. -/
def post (body : Option (Option String)) (outcome : ProxyOutcome)
    (now : String) : ChatResult :=
  match body with
  | none =>
    { status := 500, response? := none,
      error? := some "Failed to process request", timestamp? := none }
  | some message =>
    if jsFalsy message then
      { status := 400, response? := none,
        error? := some "Message is required", timestamp? := none }
    else
      match outcome with
      | .respond true (some text) =>
        { status := 200, response? := some (jsOrStr text processingMessage),
          error? := none, timestamp? := some now }
      | .respond true none =>
        { status := 200, response? := some chatFallbackMessage,
          error? := none, timestamp? := some now }
      | .respond false _ =>
        { status := 200, response? := some chatFallbackMessage,
          error? := none, timestamp? := some now }
      | .fetchError =>
        { status := 200, response? := some chatFallbackMessage,
          error? := none, timestamp? := some now }

end ChatRoute

/-! ### Supporting lemmas -/

/-- Folding repeated subtraction equals subtracting the sum of the
per-element deductions. -/
theorem foldl_sub_eq {α : Type} (f : α → Int) (l : List α) :
    ∀ init : Int, l.foldl (fun s x => s - f x) init = init - (l.map f).sum := by
  induction l with
  | nil => intro init; simp
  | cons x xs ih =>
    intro init
    simp only [List.foldl_cons, List.map_cons, List.sum_cons, ih]
    ring

/-- `CodeStore.calculateSecurityScore` in closed form. -/
theorem calculateSecurityScore_eq (vs : List Vulnerability) :
    CodeStore.calculateSecurityScore vs =
      max 0 (100 - (vs.map (fun v => CodeStore.securityPenalty v.severity)).sum) := by
  unfold CodeStore.calculateSecurityScore
  split
  · rename_i h
    have : vs = [] := List.length_eq_zero.mp h
    subst this
    simp
  · rw [foldl_sub_eq]

/-- `CodeStore.calculatePerformanceScore` in closed form. -/
theorem calculatePerformanceScore_eq (bs : List Bottleneck) :
    CodeStore.calculatePerformanceScore bs =
      max 0 (100 - (bs.map (fun b => CodeStore.performancePenalty b.severity)).sum) := by
  unfold CodeStore.calculatePerformanceScore
  split
  · rename_i h
    have : bs = [] := List.length_eq_zero.mp h
    subst this
    simp
  · rw [foldl_sub_eq]

/-! ### Claims -/

/-- C1: the security scan's `securityScore` is 100 when the detector
emits no finding, and otherwise 100 minus the fixed per-severity
penalties (25/15/8/3 for critical/high/medium/low, the values of
`CodeStore.securityPenalty`) clamped below at 0; likewise the
performance analysis's `performanceScore` with the penalties
20/15/8/3 of `CodeStore.performancePenalty`. -/
theorem claim1_fixed_penalty_scores (code : Str) (language : String) :
    ((CodeStore.scanSecurity code language).securityScore =
      max 0 (100 - ((CodeStore.detectVulnerabilities code language).map
        (fun v => CodeStore.securityPenalty v.severity)).sum)) ∧
    (CodeStore.detectVulnerabilities code language = [] →
      (CodeStore.scanSecurity code language).securityScore = 100) ∧
    ((CodeStore.analyzePerformance code language).performanceScore =
      max 0 (100 - ((CodeStore.detectPerformanceBottlenecks code language).map
        (fun b => CodeStore.performancePenalty b.severity)).sum)) ∧
    (CodeStore.detectPerformanceBottlenecks code language = [] →
      (CodeStore.analyzePerformance code language).performanceScore = 100) := by
  refine ⟨?_, ?_, ?_, ?_⟩
  · show CodeStore.calculateSecurityScore _ = _
    exact calculateSecurityScore_eq _
  · intro h
    show CodeStore.calculateSecurityScore _ = _
    rw [h]
    rfl
  · show CodeStore.calculatePerformanceScore _ = _
    exact calculatePerformanceScore_eq _
  · intro h
    show CodeStore.calculatePerformanceScore _ = _
    rw [h]
    rfl

/-- C1 witness: on the empty program both detectors are empty and both
scores are 100. -/
theorem claim1_witness :
    CodeStore.detectVulnerabilities (str "") "javascript" = [] ∧
    (CodeStore.scanSecurity (str "") "javascript").securityScore = 100 ∧
    (CodeStore.analyzePerformance (str "") "javascript").performanceScore = 100 := by
  have h := claim1_fixed_penalty_scores (str "") "javascript"
  have hv : CodeStore.detectVulnerabilities (str "") "javascript" = [] := by decide
  have hb : CodeStore.detectPerformanceBottlenecks (str "") "javascript" = [] := by decide
  exact ⟨hv, h.2.1 hv, h.2.2.2 hb⟩

/-- C2: once a request carries a non-empty message, any failure of the
proxied agent call — a thrown/aborted `fetch`, a body that fails to
parse, or a non-OK status — produces HTTP 200 with the one fixed canned
assistant string; the agent text reaches the caller only on the OK path,
where the response is `data.text` (or the fixed processing default when
that field is falsy). -/
theorem claim2_chat_fallback (message : String) (hmsg : message ≠ "")
    (outcome : ChatRoute.ProxyOutcome) (now : String) :
    ((outcome = .fetchError ∨ (∃ j, outcome = .respond false j) ∨
        outcome = .respond true none) →
      ChatRoute.post (some (some message)) outcome now =
        { status := 200, response? := some ChatRoute.chatFallbackMessage,
          error? := none, timestamp? := some now }) ∧
    (∀ text : Option String,
      ChatRoute.post (some (some message)) (.respond true (some text)) now =
        { status := 200, response? := some (jsOrStr text ChatRoute.processingMessage),
          error? := none, timestamp? := some now }) := by
  have hfalsy : ChatRoute.jsFalsy (some message) = false := by
    simp [ChatRoute.jsFalsy, hmsg]
  constructor
  · rintro (rfl | ⟨j, rfl⟩ | rfl) <;> simp [ChatRoute.post, hfalsy]
  · intro text
    simp [ChatRoute.post, hfalsy]

/-- C2 witness: a concrete non-empty message with a timed-out fetch gets
the canned fallback with status 200. -/
theorem claim2_witness :
    ChatRoute.post (some (some "hello")) .fetchError "2024-01-01T00:00:00Z" =
      { status := 200, response? := some ChatRoute.chatFallbackMessage,
        error? := none, timestamp? := some "2024-01-01T00:00:00Z" } :=
  (claim2_chat_fallback "hello" (by decide) .fetchError "2024-01-01T00:00:00Z").1
    (Or.inl rfl)

/-- C4: the heuristic analyzers are deterministic — two runs of
`analyzeCode`, `scanSecurity` or `analyzePerformance` on the same
`code`/`language` arguments return identical scores, identical findings
lists and identical recommendation/suggestion lists. -/
theorem claim4_deterministic (code : Str) (language : String)
    (a₁ a₂ : CodeStore.CodeAnalysis) (s₁ s₂ : CodeStore.SecurityScan)
    (p₁ p₂ : CodeStore.PerformanceAnalysis)
    (ha₁ : a₁ = CodeStore.analyzeCode code language)
    (ha₂ : a₂ = CodeStore.analyzeCode code language)
    (hs₁ : s₁ = CodeStore.scanSecurity code language)
    (hs₂ : s₂ = CodeStore.scanSecurity code language)
    (hp₁ : p₁ = CodeStore.analyzePerformance code language)
    (hp₂ : p₂ = CodeStore.analyzePerformance code language) :
    a₁.qualityScore = a₂.qualityScore ∧ a₁.issues = a₂.issues ∧
    a₁.suggestions = a₂.suggestions ∧
    s₁.securityScore = s₂.securityScore ∧ s₁.vulnerabilities = s₂.vulnerabilities ∧
    s₁.recommendations = s₂.recommendations ∧
    p₁.performanceScore = p₂.performanceScore ∧ p₁.bottlenecks = p₂.bottlenecks ∧
    p₁.recommendations = p₂.recommendations := by
  subst ha₁ ha₂ hs₁ hs₂ hp₁ hp₂
  exact ⟨rfl, rfl, rfl, rfl, rfl, rfl, rfl, rfl, rfl⟩

/-- C4 witness: instantiated on a concrete run. -/
theorem claim4_witness :
    (CodeStore.scanSecurity (str "let x = 1") "javascript").securityScore =
      (CodeStore.scanSecurity (str "let x = 1") "javascript").securityScore :=
  (claim4_deterministic (str "let x = 1") "javascript" _ _ _ _ _ _
    rfl rfl rfl rfl rfl rfl).2.2.2.1

/-- C6: the four analysis methods are stateless with respect to the
store — called on any receiver state they return it unchanged (both the
`files` and `sessions` maps), and their results agree across any two
receiver states, i.e. depend only on the `code`, `language` and
`projectName` arguments. -/
theorem claim6_analyzers_stateless (store store' : CodeStore.Store) (code : Str)
    (language : String) (projectName : Option String) :
    (CodeStore.analyzeCodeM store code language).2 = store ∧
    (CodeStore.scanSecurityM store code language).2 = store ∧
    (CodeStore.analyzePerformanceM store code language).2 = store ∧
    (CodeStore.generateDocumentationM store code language projectName).2 = store ∧
    (CodeStore.analyzeCodeM store code language).1 =
      (CodeStore.analyzeCodeM store' code language).1 ∧
    (CodeStore.scanSecurityM store code language).1 =
      (CodeStore.scanSecurityM store' code language).1 ∧
    (CodeStore.analyzePerformanceM store code language).1 =
      (CodeStore.analyzePerformanceM store' code language).1 ∧
    (CodeStore.generateDocumentationM store code language projectName).1 =
      (CodeStore.generateDocumentationM store' code language projectName).1 :=
  ⟨rfl, rfl, rfl, rfl, rfl, rfl, rfl, rfl⟩

/-- C10: the `CodeStore` copy and the security scanner tool copy of
`calculateSecurityScore` agree on every list of vulnerability findings. -/
theorem claim10_duplicate_scores_agree (vulnerabilities : List Vulnerability) :
    CodeStore.calculateSecurityScore vulnerabilities =
      SecurityTool.calculateSecurityScore vulnerabilities := rfl

/-- `Math.round` of a value clamped to `[0, 100]` stays in `[0, 100]`. -/
theorem round_clamp_bounds (x : ℚ) :
    0 ≤ round (max 0 (min 100 x)) ∧ round (max 0 (min 100 x)) ≤ 100 := by
  have h0 : (0 : ℚ) ≤ max 0 (min 100 x) := le_max_left _ _
  have h1 : max 0 (min 100 x) ≤ 100 := max_le (by norm_num) (min_le_left _ _)
  constructor
  · rw [round_eq]
    exact Int.le_floor.mpr (by push_cast; linarith)
  · rw [round_eq]
    have h : ⌊max 0 (min 100 x) + 1 / 2⌋ < 101 := Int.floor_lt.mpr (by push_cast; linarith)
    omega

/-- `jsSplit` never returns the empty list (JS `split` always yields at
least one piece). -/
theorem jsSplit_ne_nil (sep : Char) (s : Str) : jsSplit sep s ≠ [] := by
  induction s with
  | nil => simp [jsSplit]
  | cons c cs ih =>
    simp only [jsSplit]
    split
    · simp
    · cases h : jsSplit sep cs <;> simp

/-- C5: the quality score of `CodeStore.analyzeCode` and of the
`analyze_code` tool is an integer in `[0, 100]` for every input — the
weighted combination is clamped with `max 0 (min 100 ·)` before
`Math.round` — and the `lines` divisor, the length of
`code.split('\n')`, is at least 1 for every input including the empty
string. -/
theorem claim5_quality_score_bounds (code : Str) (language : String) :
    0 ≤ (CodeStore.analyzeCode code language).qualityScore ∧
    (CodeStore.analyzeCode code language).qualityScore ≤ 100 ∧
    0 ≤ AnalyzerTool.qualityScore code ∧
    AnalyzerTool.qualityScore code ≤ 100 ∧
    1 ≤ (jsSplit '\n' code).length := by
  refine ⟨?_, ?_, ?_, ?_, ?_⟩
  · simp only [CodeStore.analyzeCode]
    exact (round_clamp_bounds _).1
  · simp only [CodeStore.analyzeCode]
    exact (round_clamp_bounds _).2
  · simp only [AnalyzerTool.qualityScore]
    exact (round_clamp_bounds _).1
  · simp only [AnalyzerTool.qualityScore]
    exact (round_clamp_bounds _).2
  · exact List.length_pos.mpr (jsSplit_ne_nil '\n' code)

/-- Looking a key up right after `Map.set` on that key yields the new
value. -/
theorem lookupAssoc_setAssoc_self {α : Type} (m : List (String × α)) (k : String) (v : α) :
    CodeStore.lookupAssoc (CodeStore.setAssoc m k v) k = some v := by
  induction m with
  | nil => simp [CodeStore.setAssoc, CodeStore.lookupAssoc]
  | cons p rest ih =>
    obtain ⟨k', v'⟩ := p
    by_cases h : k' = k <;>
      simp [CodeStore.setAssoc, CodeStore.lookupAssoc, h, ih]

/-- After `Map.set`, the new value is among `Map.values()`. -/
theorem snd_mem_setAssoc {α : Type} (m : List (String × α)) (k : String) (v : α) :
    v ∈ (CodeStore.setAssoc m k v).map Prod.snd := by
  induction m with
  | nil => simp [CodeStore.setAssoc]
  | cons p rest ih =>
    obtain ⟨k', v'⟩ := p
    by_cases h : k' = k <;> simp [CodeStore.setAssoc, h, ih]

/-- C9: add/get round trip — `addFile` returns a record that `getFile`
finds under its fresh id, that agrees with the supplied `fileData` on
every supplied field (only `id` and `lastModified` are generated), and
that `getAllFiles()` afterwards contains. -/
theorem claim9_addFile_roundtrip (store : CodeStore.Store)
    (fileData : CodeStore.CodeFileData) (newId now : String) :
    CodeStore.getFile (CodeStore.addFile store fileData newId now).2
        (CodeStore.addFile store fileData newId now).1.id =
      some (CodeStore.addFile store fileData newId now).1 ∧
    (CodeStore.addFile store fileData newId now).1.name = fileData.name ∧
    (CodeStore.addFile store fileData newId now).1.path = fileData.path ∧
    (CodeStore.addFile store fileData newId now).1.content = fileData.content ∧
    (CodeStore.addFile store fileData newId now).1.language = fileData.language ∧
    (CodeStore.addFile store fileData newId now).1.size = fileData.size ∧
    (CodeStore.addFile store fileData newId now).1.analysis? = fileData.analysis? ∧
    (CodeStore.addFile store fileData newId now).1.securityScan? = fileData.securityScan? ∧
    (CodeStore.addFile store fileData newId now).1.performanceAnalysis? =
      fileData.performanceAnalysis? ∧
    (CodeStore.addFile store fileData newId now).1 ∈
      CodeStore.getAllFiles (CodeStore.addFile store fileData newId now).2 := by
  refine ⟨?_, rfl, rfl, rfl, rfl, rfl, rfl, rfl, rfl, ?_⟩
  · exact lookupAssoc_setAssoc_self store.files newId _
  · exact snd_mem_setAssoc store.files newId _

/-- C8 (amended): `updateFile`/`updateSession` on an absent id return
`undefined` and leave both maps untouched; on a present id the returned
record is exactly the record stored under that id afterwards, the other
map is untouched, and the record's `id` field is unchanged provided the
`updates` object does not itself carry an `id` field (a supplied
`updates.id` overwrites it, which is what the original claim missed). -/
theorem claim8_update_semantics (store : CodeStore.Store) (id : String)
    (fu : CodeStore.CodeFileUpdates) (su : CodeStore.SessionUpdates) (now : String) :
    (CodeStore.lookupAssoc store.files id = none →
      CodeStore.updateFile store id fu now = (none, store)) ∧
    (∀ f, CodeStore.lookupAssoc store.files id = some f →
      (CodeStore.updateFile store id fu now).1 =
        some (CodeStore.applyFileUpdates f fu now) ∧
      CodeStore.lookupAssoc (CodeStore.updateFile store id fu now).2.files id =
        some (CodeStore.applyFileUpdates f fu now) ∧
      (CodeStore.updateFile store id fu now).2.sessions = store.sessions ∧
      (fu.idU = none → (CodeStore.applyFileUpdates f fu now).id = f.id)) ∧
    (CodeStore.lookupAssoc store.sessions id = none →
      CodeStore.updateSession store id su now = (none, store)) ∧
    (∀ s, CodeStore.lookupAssoc store.sessions id = some s →
      (CodeStore.updateSession store id su now).1 =
        some (CodeStore.applySessionUpdates s su now) ∧
      CodeStore.lookupAssoc (CodeStore.updateSession store id su now).2.sessions id =
        some (CodeStore.applySessionUpdates s su now) ∧
      (CodeStore.updateSession store id su now).2.files = store.files ∧
      (su.idU = none → (CodeStore.applySessionUpdates s su now).id = s.id)) := by
  refine ⟨?_, ?_, ?_, ?_⟩
  · intro h
    simp [CodeStore.updateFile, h]
  · intro f h
    refine ⟨?_, ?_, ?_, ?_⟩
    · simp [CodeStore.updateFile, h]
    · simp only [CodeStore.updateFile, h]
      exact lookupAssoc_setAssoc_self store.files id _
    · simp [CodeStore.updateFile, h]
    · intro hid
      simp [CodeStore.applyFileUpdates, hid]
  · intro h
    simp [CodeStore.updateSession, h]
  · intro s h
    refine ⟨?_, ?_, ?_, ?_⟩
    · simp [CodeStore.updateSession, h]
    · simp only [CodeStore.updateSession, h]
      exact lookupAssoc_setAssoc_self store.sessions id _
    · simp [CodeStore.updateSession, h]
    · intro hid
      simp [CodeStore.applySessionUpdates, hid]

/-- A concrete stored file under key `"a"`. -/
def sampleFile : CodeStore.CodeFile :=
  { id := "a", name := "f.ts", path := "/f.ts", content := "x",
    language := "typescript", size := 1, lastModified := "t0",
    analysis? := none, securityScan? := none, performanceAnalysis? := none }

/-- A store holding `sampleFile` under key `"a"`. -/
def sampleStore : CodeStore.Store :=
  { files := [("a", sampleFile)], sessions := [] }

/-- A `Partial<CodeFile>` that carries an `id` field. -/
def idChangingUpdates : CodeStore.CodeFileUpdates :=
  { idU := some "b", nameU := none, pathU := none, contentU := none,
    languageU := none, sizeU := none, lastModifiedU := none,
    analysisU := none, securityScanU := none, performanceAnalysisU := none }

/-- A `Partial<AnalysisSession>` with no fields. -/
def emptySessionUpdates : CodeStore.SessionUpdates :=
  { idU := none, nameU := none, repositoryUrlU := none, filesU := none,
    createdAtU := none, updatedAtU := none, statusU := none, reportU := none }

/-- C8 counterexample: updating the file stored under id `"a"` with a
`Partial<CodeFile>` whose `id` field is `"b"` returns (and stores under
key `"a"`) a record whose `id` field is `"b"`, so the claim's "with its
id field unchanged" fails as stated. -/
theorem claim8_counterexample :
    CodeStore.lookupAssoc sampleStore.files "a" = some sampleFile ∧
    sampleFile.id = "a" ∧
    ((CodeStore.updateFile sampleStore "a" idChangingUpdates "t1").1.map
      CodeStore.CodeFile.id) = some "b" ∧
    (CodeStore.lookupAssoc
        (CodeStore.updateFile sampleStore "a" idChangingUpdates "t1").2.files "a").map
      CodeStore.CodeFile.id = some "b" ∧
    ("b" : String) ≠ "a" := by
  refine ⟨rfl, rfl, rfl, rfl, by decide⟩

/-- C8 witness: the amended theorem applied to a concrete absent id. -/
theorem claim8_witness :
    CodeStore.updateFile sampleStore "zzz" idChangingUpdates "t1" = (none, sampleStore) :=
  (claim8_update_semantics sampleStore "zzz" idChangingUpdates emptySessionUpdates "t1").1
    (by decide)

/-- Membership in a line-by-line scan: an element is produced iff some
line (0-based index `i`, numbered `k + i`) produces it. -/
theorem mem_scanLines {α : Type} (f : Nat → Str → List α) (v : α) :
    ∀ (ls : List Str) (k : Nat),
      v ∈ scanLines f k ls ↔ ∃ i, ∃ h : i < ls.length, v ∈ f (k + i) (ls.get ⟨i, h⟩) := by
  intro ls
  induction ls with
  | nil => intro k; simp [scanLines]
  | cons l ls ih =>
    intro k
    simp only [scanLines, List.mem_append, ih (k + 1)]
    constructor
    · rintro (h | ⟨i, hi, hmem⟩)
      · exact ⟨0, Nat.succ_pos _, by simpa using h⟩
      · refine ⟨i + 1, Nat.succ_lt_succ hi, ?_⟩
        have harith : k + (i + 1) = k + 1 + i := by omega
        simpa [harith] using hmem
    · rintro ⟨i, hi, hmem⟩
      cases i with
      | zero => exact Or.inl (by simpa using hmem)
      | succ j =>
        refine Or.inr ⟨j, Nat.lt_of_succ_lt_succ hi, ?_⟩
        have harith : k + 1 + j = k + (j + 1) := by omega
        simpa [harith] using hmem

/-- Membership in a one-rule slot of a scanner body. -/
theorem mem_if_singleton {α : Type} (c : Bool) (a v : α) :
    v ∈ (if c then [a] else []) ↔ c = true ∧ v = a := by
  cases c <;> simp

/-- Per-line characterization of the XSS finding of
`CodeStore.secRulesForLine`. -/
theorem xss_mem_secRules (m n : Nat) (l : Str) :
    (∃ v ∈ CodeStore.secRulesForLine m l,
        v.title = "Cross-Site Scripting (XSS)" ∧ v.line? = some n) ↔
      ((includes (toLowerStr l) (str "innerhtml")
          || includes (toLowerStr l) (str "outerhtml")) = true ∧ m = n) := by
  simp only [CodeStore.secRulesForLine, List.mem_append, mem_if_singleton,
    CodeStore.sqlInjectionVuln, CodeStore.xssVuln, CodeStore.hardcodedSecretVuln]
  constructor
  · rintro ⟨v, hv, htitle, hline⟩
    rcases hv with (⟨hc, rfl⟩ | ⟨hc, rfl⟩) | ⟨hc, rfl⟩ <;> simp_all
  · rintro ⟨hc, rfl⟩
    exact ⟨_, Or.inl (Or.inr ⟨hc, rfl⟩), rfl, rfl⟩

/-- A scan contains an element satisfying `p` iff some line produces one. -/
theorem exists_mem_scanLines {α : Type} (f : Nat → Str → List α) (ls : List Str)
    (k : Nat) (p : α → Prop) :
    (∃ v ∈ scanLines f k ls, p v) ↔
      ∃ i, ∃ h : i < ls.length, ∃ v ∈ f (k + i) (ls.get ⟨i, h⟩), p v := by
  constructor
  · rintro ⟨v, hv, hp⟩
    obtain ⟨i, h, hmem⟩ := (mem_scanLines f v ls k).mp hv
    exact ⟨i, h, v, hmem, hp⟩
  · rintro ⟨i, h, v, hmem, hp⟩
    exact ⟨v, (mem_scanLines f v ls k).mpr ⟨i, h, hmem⟩, hp⟩

/-- Translate "the line at 0-based index `i` with `1 + i = n`" into "line
number `n` of the split" (`get? (n - 1)`). -/
theorem exists_get_iff_lineNumber {α : Type} (L : List α) (p : α → Prop) (n : Nat) :
    (∃ i, ∃ h : i < L.length, p (L.get ⟨i, h⟩) ∧ 1 + i = n) ↔
      (∃ l, L.get? (n - 1) = some l ∧ 1 ≤ n ∧ p l) := by
  constructor
  · rintro ⟨i, h, hp, rfl⟩
    refine ⟨L.get ⟨i, h⟩, ?_, by omega, hp⟩
    have hi : 1 + i - 1 = i := by omega
    rw [hi, List.get?_eq_get h]
  · rintro ⟨l, hget, hn, hp⟩
    obtain ⟨h, hl⟩ := List.get?_eq_some.mp hget
    exact ⟨n - 1, h, by rw [hl]; exact hp, by omega⟩

/-- Any XSS-titled finding of `CodeStore.secRulesForLine` is the fixed
`xssVuln` record of its line. -/
theorem xss_shape_secRules (m : Nat) (l : Str) (v : Vulnerability)
    (hv : v ∈ CodeStore.secRulesForLine m l)
    (ht : v.title = "Cross-Site Scripting (XSS)") : v = CodeStore.xssVuln m := by
  simp only [CodeStore.secRulesForLine, List.mem_append, mem_if_singleton] at hv
  rcases hv with (⟨hc, rfl⟩ | ⟨hc, rfl⟩) | ⟨hc, rfl⟩ <;>
    simp_all [CodeStore.sqlInjectionVuln, CodeStore.xssVuln, CodeStore.hardcodedSecretVuln]

/-- Per-line characterization of the XSS finding of the security
scanner tool's rules. -/
theorem xss_mem_toolSecRules (language : String) (m n : Nat) (l : Str) :
    (∃ v ∈ SecurityTool.secRulesForLine language m l,
        v.title = "Cross-Site Scripting (XSS)" ∧ v.line? = some n) ↔
      ((includes (toLowerStr l) (str "innerhtml")
          || includes (toLowerStr l) (str "outerhtml")) = true ∧ m = n) := by
  simp only [SecurityTool.secRulesForLine, List.mem_append, mem_if_singleton,
    CodeStore.sqlInjectionVuln, CodeStore.xssVuln, CodeStore.hardcodedSecretVuln,
    SecurityTool.weakRandomVuln, SecurityTool.insecureProtocolVuln,
    SecurityTool.inputValidationVuln, SecurityTool.weakAuthVuln]
  constructor
  · rintro ⟨v, hv, htitle, hline⟩
    rcases hv with
      ((((((⟨hc, rfl⟩ | ⟨hc, rfl⟩) | ⟨hc, rfl⟩) | ⟨hc, rfl⟩) | ⟨hc, rfl⟩) | ⟨hc, rfl⟩)
        | ⟨hc, rfl⟩) <;> simp_all
  · rintro ⟨hc, rfl⟩
    exact ⟨_, Or.inl (Or.inl (Or.inl (Or.inl (Or.inl (Or.inr ⟨hc, rfl⟩))))), rfl, rfl⟩

/-- Any XSS-titled finding of the tool's rules is the fixed `xssVuln`
record of its line. -/
theorem xss_shape_toolSecRules (language : String) (m : Nat) (l : Str) (v : Vulnerability)
    (hv : v ∈ SecurityTool.secRulesForLine language m l)
    (ht : v.title = "Cross-Site Scripting (XSS)") : v = CodeStore.xssVuln m := by
  simp only [SecurityTool.secRulesForLine, List.mem_append, mem_if_singleton] at hv
  rcases hv with
    ((((((⟨hc, rfl⟩ | ⟨hc, rfl⟩) | ⟨hc, rfl⟩) | ⟨hc, rfl⟩) | ⟨hc, rfl⟩) | ⟨hc, rfl⟩)
      | ⟨hc, rfl⟩) <;>
    simp_all [CodeStore.sqlInjectionVuln, CodeStore.xssVuln, CodeStore.hardcodedSecretVuln,
      SecurityTool.weakRandomVuln, SecurityTool.insecureProtocolVuln,
      SecurityTool.inputValidationVuln, SecurityTool.weakAuthVuln]

/-- C3: a scan (both the `CodeStore` scanner and the security scanner
tool) reports a "Cross-Site Scripting (XSS)" vulnerability with line
number `n` iff line `n` of the code, lowercased, contains `innerhtml` or
`outerhtml`; and every such finding is the fixed record (severity high,
CWE-79, fixed description) regardless of the rest of the input. -/
theorem claim3_xss_iff (code : Str) (language : String) (framework : Option String)
    (n : Nat) :
    ((∃ v ∈ CodeStore.detectVulnerabilities code language,
        v.title = "Cross-Site Scripting (XSS)" ∧ v.line? = some n) ↔
      (∃ l, (jsSplit '\n' code).get? (n - 1) = some l ∧ 1 ≤ n ∧
        (includes (toLowerStr l) (str "innerhtml")
          || includes (toLowerStr l) (str "outerhtml")) = true)) ∧
    ((∃ v ∈ SecurityTool.scanForVulnerabilities code language framework,
        v.title = "Cross-Site Scripting (XSS)" ∧ v.line? = some n) ↔
      (∃ l, (jsSplit '\n' code).get? (n - 1) = some l ∧ 1 ≤ n ∧
        (includes (toLowerStr l) (str "innerhtml")
          || includes (toLowerStr l) (str "outerhtml")) = true)) ∧
    (∀ v ∈ CodeStore.detectVulnerabilities code language,
      v.title = "Cross-Site Scripting (XSS)" →
        v.severity = .high ∧ v.cwe? = some "CWE-79" ∧
        v.description = "Direct DOM manipulation can lead to XSS attacks") ∧
    (∀ v ∈ SecurityTool.scanForVulnerabilities code language framework,
      v.title = "Cross-Site Scripting (XSS)" →
        v.severity = .high ∧ v.cwe? = some "CWE-79" ∧
        v.description = "Direct DOM manipulation can lead to XSS attacks") := by
  refine ⟨?_, ?_, ?_, ?_⟩
  · rw [CodeStore.detectVulnerabilities, exists_mem_scanLines]
    simp only [xss_mem_secRules]
    exact exists_get_iff_lineNumber (jsSplit '\n' code)
      (fun l => (includes (toLowerStr l) (str "innerhtml")
        || includes (toLowerStr l) (str "outerhtml")) = true) n
  · rw [SecurityTool.scanForVulnerabilities, exists_mem_scanLines]
    simp only [xss_mem_toolSecRules]
    exact exists_get_iff_lineNumber (jsSplit '\n' code)
      (fun l => (includes (toLowerStr l) (str "innerhtml")
        || includes (toLowerStr l) (str "outerhtml")) = true) n
  · intro v hv ht
    obtain ⟨i, h, hmem⟩ :=
      (mem_scanLines CodeStore.secRulesForLine v (jsSplit '\n' code) 1).mp hv
    rw [xss_shape_secRules (1 + i) _ v hmem ht]
    exact ⟨rfl, rfl, rfl⟩
  · intro v hv ht
    obtain ⟨i, h, hmem⟩ :=
      (mem_scanLines (SecurityTool.secRulesForLine language) v (jsSplit '\n' code) 1).mp hv
    rw [xss_shape_toolSecRules language (1 + i) _ v hmem ht]
    exact ⟨rfl, rfl, rfl⟩

/-- C3 witness: a one-line program assigning to `innerHTML` is reported
as XSS on line 1 by the store scanner. -/
theorem claim3_witness :
    ∃ v ∈ CodeStore.detectVulnerabilities (str "x.innerHTML = y") "javascript",
      v.title = "Cross-Site Scripting (XSS)" ∧ v.line? = some 1 :=
  (claim3_xss_iff (str "x.innerHTML = y") "javascript" none 1).1.mpr
    ⟨str "x.innerHTML = y", by decide, by decide, by decide⟩

/-- Per-line characterization of the nested-loops finding of
`CodeStore.perfRulesForLine`: because the source duplicates each
conjunct (`includes('for') && includes('for')`), the guard is equivalent
to plain `includes('for') || includes('while')`. -/
theorem nested_mem_perfRules (m n : Nat) (l : Str) :
    (∃ b ∈ CodeStore.perfRulesForLine m l,
        b.description = "Nested loops detected - O(n²) or worse complexity" ∧
        b.line? = some n) ↔
      ((includes (toLowerStr l) (str "for")
          || includes (toLowerStr l) (str "while")) = true ∧ m = n) := by
  simp only [CodeStore.perfRulesForLine, List.mem_append, mem_if_singleton,
    CodeStore.nestedLoopsBottleneck, CodeStore.eventListenerBottleneck]
  constructor
  · rintro ⟨b, hv, hd, hline⟩
    rcases hv with ⟨hc, rfl⟩ | ⟨hc, rfl⟩ <;> simp_all
  · rintro ⟨hc, rfl⟩
    exact ⟨_, Or.inl ⟨by simpa using hc, rfl⟩, rfl, rfl⟩

/-- Any nested-loops finding of `CodeStore.perfRulesForLine` is the
fixed record of its line. -/
theorem nested_shape_perfRules (m : Nat) (l : Str) (b : Bottleneck)
    (hv : b ∈ CodeStore.perfRulesForLine m l)
    (hd : b.description = "Nested loops detected - O(n²) or worse complexity") :
    b = CodeStore.nestedLoopsBottleneck m := by
  simp only [CodeStore.perfRulesForLine, List.mem_append, mem_if_singleton] at hv
  rcases hv with ⟨hc, rfl⟩ | ⟨hc, rfl⟩ <;>
    simp_all [CodeStore.nestedLoopsBottleneck, CodeStore.eventListenerBottleneck]

/-- Per-line characterization of the nested-loops finding of the
performance optimizer tool's rules. -/
theorem nested_mem_toolPerfRules (m n : Nat) (l : Str) :
    (∃ b ∈ PerfTool.perfRulesForLine m l,
        b.description = "Nested loops detected - O(n²) or worse complexity" ∧
        b.line? = some n) ↔
      ((includes (toLowerStr l) (str "for")
          || includes (toLowerStr l) (str "while")) = true ∧ m = n) := by
  simp only [PerfTool.perfRulesForLine, List.mem_append, mem_if_singleton,
    CodeStore.nestedLoopsBottleneck, CodeStore.eventListenerBottleneck,
    PerfTool.arrayIterationBottleneck, PerfTool.largeArrayBottleneck,
    PerfTool.syncOpsBottleneck, PerfTool.domQueryBottleneck,
    PerfTool.nPlusOneBottleneck, PerfTool.lazyImageBottleneck,
    PerfTool.noCacheBottleneck]
  constructor
  · rintro ⟨b, hv, hd, hline⟩
    rcases hv with
      ((((((((⟨hc, rfl⟩ | ⟨hc, rfl⟩) | ⟨hc, rfl⟩) | ⟨hc, rfl⟩) | ⟨hc, rfl⟩) | ⟨hc, rfl⟩)
        | ⟨hc, rfl⟩) | ⟨hc, rfl⟩) | ⟨hc, rfl⟩) <;> simp_all
  · rintro ⟨hc, rfl⟩
    exact ⟨_,
      Or.inl (Or.inl (Or.inl (Or.inl (Or.inl (Or.inl (Or.inl (Or.inl
        ⟨by simpa using hc, rfl⟩))))))), rfl, rfl⟩

/-- Any nested-loops finding of the tool's rules is the fixed record of
its line. -/
theorem nested_shape_toolPerfRules (m : Nat) (l : Str) (b : Bottleneck)
    (hv : b ∈ PerfTool.perfRulesForLine m l)
    (hd : b.description = "Nested loops detected - O(n²) or worse complexity") :
    b = CodeStore.nestedLoopsBottleneck m := by
  simp only [PerfTool.perfRulesForLine, List.mem_append, mem_if_singleton] at hv
  rcases hv with
    ((((((((⟨hc, rfl⟩ | ⟨hc, rfl⟩) | ⟨hc, rfl⟩) | ⟨hc, rfl⟩) | ⟨hc, rfl⟩) | ⟨hc, rfl⟩)
      | ⟨hc, rfl⟩) | ⟨hc, rfl⟩) | ⟨hc, rfl⟩) <;>
    simp_all [CodeStore.nestedLoopsBottleneck, CodeStore.eventListenerBottleneck,
      PerfTool.arrayIterationBottleneck, PerfTool.largeArrayBottleneck,
      PerfTool.syncOpsBottleneck, PerfTool.domQueryBottleneck,
      PerfTool.nPlusOneBottleneck, PerfTool.lazyImageBottleneck,
      PerfTool.noCacheBottleneck]

/-- C7: both the `CodeStore` performance scanner and the performance
optimizer tool emit the fixed-text nested-loops cpu bottleneck (severity
high) for line number `n` iff the lowercased line `n` contains the
substring `for` or the substring `while` (the duplicated conjuncts of
the source's guard collapse), and every such finding is the fixed
record. -/
theorem claim7_nested_loops_iff (code : Str) (language : String)
    (framework : Option String) (n : Nat) :
    ((∃ b ∈ CodeStore.detectPerformanceBottlenecks code language,
        b.description = "Nested loops detected - O(n²) or worse complexity" ∧
        b.line? = some n) ↔
      (∃ l, (jsSplit '\n' code).get? (n - 1) = some l ∧ 1 ≤ n ∧
        (includes (toLowerStr l) (str "for")
          || includes (toLowerStr l) (str "while")) = true)) ∧
    ((∃ b ∈ PerfTool.analyzePerformanceBottlenecks code language framework,
        b.description = "Nested loops detected - O(n²) or worse complexity" ∧
        b.line? = some n) ↔
      (∃ l, (jsSplit '\n' code).get? (n - 1) = some l ∧ 1 ≤ n ∧
        (includes (toLowerStr l) (str "for")
          || includes (toLowerStr l) (str "while")) = true)) ∧
    (∀ b ∈ CodeStore.detectPerformanceBottlenecks code language,
      b.description = "Nested loops detected - O(n²) or worse complexity" →
        b.type = .cpu ∧ b.severity = .high) ∧
    (∀ b ∈ PerfTool.analyzePerformanceBottlenecks code language framework,
      b.description = "Nested loops detected - O(n²) or worse complexity" →
        b.type = .cpu ∧ b.severity = .high) := by
  refine ⟨?_, ?_, ?_, ?_⟩
  · rw [CodeStore.detectPerformanceBottlenecks, exists_mem_scanLines]
    simp only [nested_mem_perfRules]
    exact exists_get_iff_lineNumber (jsSplit '\n' code)
      (fun l => (includes (toLowerStr l) (str "for")
        || includes (toLowerStr l) (str "while")) = true) n
  · rw [PerfTool.analyzePerformanceBottlenecks, exists_mem_scanLines]
    simp only [nested_mem_toolPerfRules]
    exact exists_get_iff_lineNumber (jsSplit '\n' code)
      (fun l => (includes (toLowerStr l) (str "for")
        || includes (toLowerStr l) (str "while")) = true) n
  · intro b hv hd
    obtain ⟨i, h, hmem⟩ :=
      (mem_scanLines CodeStore.perfRulesForLine b (jsSplit '\n' code) 1).mp hv
    rw [nested_shape_perfRules (1 + i) _ b hmem hd]
    exact ⟨rfl, rfl⟩
  · intro b hv hd
    obtain ⟨i, h, hmem⟩ :=
      (mem_scanLines PerfTool.perfRulesForLine b (jsSplit '\n' code) 1).mp hv
    rw [nested_shape_toolPerfRules (1 + i) _ b hmem hd]
    exact ⟨rfl, rfl⟩

/-- C7 witness: the single-token line `for` (no nesting at all) is
already reported as a nested-loops bottleneck on line 1. -/
theorem claim7_witness :
    ∃ b ∈ CodeStore.detectPerformanceBottlenecks (str "for") "javascript",
      b.description = "Nested loops detected - O(n²) or worse complexity" ∧
      b.line? = some 1 :=
  (claim7_nested_loops_iff (str "for") "javascript" none 1).1.mpr
    ⟨str "for", by decide, by decide, by decide⟩

end Sentra
